import Mathlib

/-!
Shallow embedding of the LED name-tag firmware (src/standard/main.c) and
verification of its stated behavioural properties.

Machine integers are modelled as `Nat` with explicit reduction modulo the
word size where the C code can overflow (`uint8_t` decrements, the `uint16_t`
tock counter and anchor arithmetic).  The single timer interrupt is modelled
as a pure step function on an explicit state record; the cooperative wait
loop is modelled as a polling function over the successive `tocks()` readings
it would observe.
-/

/-- ROM component-LED to pin-pair translation table `pp` from the source:
24 red, 24 green, 24 blue entries plus a final `0x00` "no LED" sentinel. -/
def pp : List Nat :=
  [0x42, 0x24, 0x71, 0x17, 0x41, 0x14, 0x72, 0x27, 0x53, 0x35, 0x93, 0x39,
   0x98, 0x89, 0x58, 0x85, 0x28, 0x82, 0x74, 0x47, 0x75, 0x57, 0x96, 0x69,
   0x32, 0x25, 0x61, 0x19, 0x31, 0x15, 0x62, 0x29, 0x43, 0x36, 0x73, 0x45,
   0x78, 0x12, 0x48, 0x86, 0x18, 0x83, 0x64, 0x49, 0x65, 0x59, 0x76, 0x79,
   0x52, 0x23, 0x91, 0x16, 0x51, 0x13, 0x92, 0x26, 0x63, 0x34, 0x54, 0x37,
   0x21, 0x87, 0x68, 0x84, 0x38, 0x81, 0x94, 0x46, 0x95, 0x56, 0x97, 0x67,
   0x00]

/-- ROM colour sequence table `colors` (12 entries actually used). -/
def colors : List Nat :=
  [0x03, 0x07, 0x0a, 0x0d, 0x0c, 0x1c, 0x28, 0x34, 0x30, 0x31, 0x22, 0x13]

/-- `#define irwatchdogtimeout 4444` -/
def irwatchdogtimeout : Nat := 4444

/-- `#define transmitirpulseafter 4074` -/
def transmitirpulseafter : Nat := 4074

/-- `#define irpulsetime 2` -/
def irpulsetime : Nat := 2

/-- `#define irdeaftime 2` -/
def irdeaftime : Nat := 2

/-- `#define chaserpositiontargetcount0 113` -/
def chaserpositiontargetcount0 : Nat := 113

/-- `#define chaserpositiontargetcount1 11` -/
def chaserpositiontargetcount1 : Nat := 11

/-- `#define chaserpositiontargetcount2 9` -/
def chaserpositiontargetcount2 : Nat := 9

/-- `#define chasercolortargetcount 253` -/
def chasercolortargetcount : Nat := 253

/-- The global mutable state of the firmware that the timer interrupt and the
main loop manipulate.  Every field mirrors one global variable of the C
source; all C integers are modelled as `Nat` with explicit modular reduction
at the points where the C code can wrap. -/
structure TagState where
  debugstatus : Nat
  colorcount : Nat
  mode : Nat
  irwatchdog : Nat
  LedPos0 : Nat
  LedPos1 : Nat
  LedPos2 : Nat
  LedCol0 : Nat
  LedCol1 : Nat
  LedCol2 : Nat
  LedComTimePhase : Nat
  LedChaseCount0 : Nat
  LedChaseCount1 : Nat
  LedChaseCount2 : Nat
  LedColorCount : Nat
  randomnr : Nat
  randomposns0 : Nat
  randomposns1 : Nat
  randomposns2 : Nat
  elapsedtocks : Nat

/-- The `makerandom` macro: xorshift on the 16-bit `randomnr`, preceded by
`randomnr |= randomnr == 0` to keep the state non-zero. -/
def makerandom (r : Nat) : Nat :=
  let r1 := r ||| (if r = 0 then 1 else 0)
  let r2 := (r1 ^^^ (r1 <<< 13)) % 65536
  let r3 := (r2 ^^^ (r2 >>> 9)) % 65536
  (r3 ^^^ (r3 <<< 7)) % 65536

/-- Clockwise chaser advance used for pixels 0 and 2:
`if (LedPos>22) LedPos=0; else LedPos++;`. -/
def chaseAdvCW (p : Nat) : Nat := if p > 22 then 0 else p + 1

/-- Counter-clockwise chaser advance used for pixel 1:
`if (LedPos<1) LedPos=23; else LedPos--;`. -/
def chaseAdvCCW (p : Nat) : Nat := if p < 1 then 23 else p - 1

/-- Colour table index used for pixel 1 at phase 24:
`colorcount<8 ? colorcount+4 : colorcount-8`. -/
def colIdx1 (c : Nat) : Nat := if c < 8 then c + 4 else c - 8

/-- Colour table index used for pixel 2 at phase 25:
`colorcount<4 ? colorcount+8 : colorcount-4`. -/
def colIdx2 (c : Nat) : Nat := if c < 4 then c + 8 else c - 4

/-- The random-position acceptance step at phases 10/12/14/16/18/20:
`if ((randomnr & 0x18) != 0x18) randomposns[i] = randomnr & 0x1f;`. -/
def randomAccept (r old : Nat) : Nat :=
  if r &&& 0x18 ≠ 0x18 then r &&& 0x1f else old

/-- The phase-26 watchdog/mode/debugstatus update, on the triple
(irwatchdog, mode, debugstatus). -/
def wdStep (t : Nat × Nat × Nat) : Nat × Nat × Nat :=
  if t.1 < irwatchdogtimeout then (t.1 + 1, t.2.1, t.2.2 ||| 0x40)
  else (t.1, 0, 0)

/-- Projection of a tag state onto the (irwatchdog, mode, debugstatus)
triple manipulated at phase 26. -/
def wdTriple (s : TagState) : Nat × Nat × Nat :=
  (s.irwatchdog, s.mode, s.debugstatus)

/-- The per-phase pattern/protocol work of the T16 interrupt body (the
second `switch (LedComTimePhase)` of `interrupt()`), with the phase read
from the global passed explicitly.  Phase 26 sets the phase to `0xff` so
that the trailing increment wraps it to 0. -/
def phaseWork (p : Nat) (s : TagState) : TagState :=
  if p = 0 then
    { s with LedChaseCount0 := (s.LedChaseCount0 + 255) % 256 }
  else if p = 1 then
    (if s.LedChaseCount0 = 0 then
      (if s.mode ≠ 0 then { s with LedPos0 := chaseAdvCW s.LedPos0 }
       else { s with LedPos0 := s.randomposns0 })
     else s)
    else if p = 2 then
      (if s.LedChaseCount0 = 0 then
        { s with LedChaseCount0 := chaserpositiontargetcount0 } else s)
    else if p = 3 then
      { s with LedChaseCount1 := (s.LedChaseCount1 + 255) % 256 }
    else if p = 4 then
      (if s.LedChaseCount1 = 0 then
        (if s.mode ≠ 0 then { s with LedPos1 := chaseAdvCCW s.LedPos1 }
         else { s with LedPos1 := s.randomposns1 })
       else s)
    else if p = 5 then
      (if s.LedChaseCount1 = 0 then
        { s with LedChaseCount1 := chaserpositiontargetcount1 } else s)
    else if p = 6 then
      { s with LedChaseCount2 := (s.LedChaseCount2 + 255) % 256 }
    else if p = 7 then
      (if s.LedChaseCount2 = 0 then
        (if s.mode ≠ 0 then { s with LedPos2 := chaseAdvCW s.LedPos2 }
         else { s with LedPos2 := s.randomposns2 })
       else s)
    else if p = 8 then
      (if s.LedChaseCount2 = 0 then
        { s with LedChaseCount2 := chaserpositiontargetcount2 } else s)
    else if p = 9 then
      { s with randomnr := makerandom s.randomnr }
    else if p = 10 then
      { s with randomposns0 := randomAccept s.randomnr s.randomposns0 }
    else if p = 11 then
      { s with randomnr := makerandom s.randomnr }
    else if p = 12 then
      { s with randomposns1 := randomAccept s.randomnr s.randomposns1 }
    else if p = 13 then
      { s with randomnr := makerandom s.randomnr }
    else if p = 14 then
      { s with randomposns2 := randomAccept s.randomnr s.randomposns2 }
    else if p = 15 then
      { s with randomnr := makerandom s.randomnr }
    else if p = 16 then
      { s with randomposns0 := randomAccept s.randomnr s.randomposns0 }
    else if p = 17 then
      { s with randomnr := makerandom s.randomnr }
    else if p = 18 then
      { s with randomposns1 := randomAccept s.randomnr s.randomposns1 }
    else if p = 19 then
      { s with randomnr := makerandom s.randomnr }
    else if p = 20 then
      { s with randomposns2 := randomAccept s.randomnr s.randomposns2 }
    else if p = 21 then
      { s with LedColorCount := (s.LedColorCount + 255) % 256 }
    else if p = 22 then
      (if s.LedColorCount = 0 then
        { s with LedColorCount := chasercolortargetcount,
                 colorcount := if s.colorcount > 10 then 0
                               else (s.colorcount + 1) % 256 }
       else s)
    else if p = 23 then
      { s with LedCol0 := colors.getD s.colorcount 0 }
    else if p = 24 then
      { s with LedCol1 := colors.getD (colIdx1 s.colorcount) 0 }
    else if p = 25 then
      { s with LedCol2 := colors.getD (colIdx2 s.colorcount) 0 }
    else if p = 26 then
      (let u := { s with LedComTimePhase := 255 }
       let u2 :=
         if u.irwatchdog < irwatchdogtimeout then
           { u with irwatchdog := u.irwatchdog + 1,
                    debugstatus := u.debugstatus ||| 0x40 }
         else { u with mode := 0, debugstatus := 0 }
       { u2 with elapsedtocks := (u2.elapsedtocks + 1) % 65536 })
  else s

/-- The trailing `LedComTimePhase++` of the interrupt body (a `uint8_t`
increment). -/
def bumpPhase (t : TagState) : TagState :=
  { t with LedComTimePhase := (t.LedComTimePhase + 1) % 256 }

/-- One execution of the T16 interrupt body's pattern/protocol work: the
per-phase work followed by the phase increment. -/
def interruptStep (s : TagState) : TagState :=
  bumpPhase (phaseWork s.LedComTimePhase s)

/-- The component-LED selection of the first `switch (LedComTimePhase)` of
`interrupt()`: which of the 73 component indices (72 = no LED) is lit at a
given phase, given the current pixel positions and colours.  The phase is
taken as an explicit argument so that distinct phases can be compared on the
same pixel state. -/
def selectInttAt (phase : Nat) (s : TagState) : Nat :=
  if phase = 0 then (if s.LedCol0 &&& 0x01 ≠ 0 then s.LedPos0 else 72)
  else if phase = 1 then (if s.LedCol0 &&& 0x04 ≠ 0 then s.LedPos0 + 24 else 72)
  else if phase = 2 then (if s.LedCol0 &&& 0x10 ≠ 0 then s.LedPos0 + 48 else 72)
  else if phase = 3 then (if s.LedCol1 &&& 0x01 ≠ 0 then s.LedPos1 else 72)
  else if phase = 4 then (if s.LedCol1 &&& 0x04 ≠ 0 then s.LedPos1 + 24 else 72)
  else if phase = 5 then (if s.LedCol1 &&& 0x10 ≠ 0 then s.LedPos1 + 48 else 72)
  else if phase = 6 then (if s.LedCol2 &&& 0x01 ≠ 0 then s.LedPos2 else 72)
  else if phase = 7 then (if s.LedCol2 &&& 0x04 ≠ 0 then s.LedPos2 + 24 else 72)
  else if phase = 8 then (if s.LedCol2 &&& 0x10 ≠ 0 then s.LedPos2 + 48 else 72)
  else if phase = 9 ∨ phase = 18 then (if s.LedCol0 &&& 0x02 ≠ 0 then s.LedPos0 else 72)
  else if phase = 10 ∨ phase = 19 then (if s.LedCol0 &&& 0x08 ≠ 0 then s.LedPos0 + 24 else 72)
  else if phase = 11 ∨ phase = 20 then (if s.LedCol0 &&& 0x20 ≠ 0 then s.LedPos0 + 48 else 72)
  else if phase = 12 ∨ phase = 21 then (if s.LedCol1 &&& 0x02 ≠ 0 then s.LedPos1 else 72)
  else if phase = 13 ∨ phase = 22 then (if s.LedCol1 &&& 0x08 ≠ 0 then s.LedPos1 + 24 else 72)
  else if phase = 14 ∨ phase = 23 then (if s.LedCol1 &&& 0x20 ≠ 0 then s.LedPos1 + 48 else 72)
  else if phase = 15 ∨ phase = 24 then (if s.LedCol2 &&& 0x02 ≠ 0 then s.LedPos2 else 72)
  else if phase = 16 ∨ phase = 25 then (if s.LedCol2 &&& 0x08 ≠ 0 then s.LedPos2 + 24 else 72)
  else if phase = 17 ∨ phase = 26 then (if s.LedCol2 &&& 0x20 ≠ 0 then s.LedPos2 + 48 else 72)
  else 72

/-- The component-LED selected in the current state (`intt` after the first
switch of the interrupt). -/
def selectIntt (s : TagState) : Nat := selectInttAt s.LedComTimePhase s

/-- Pixel position of pixel `i` (spec-side accessor for `LedPos[i]`). -/
def ledPosAt (s : TagState) : Nat → Nat
  | 0 => s.LedPos0
  | 1 => s.LedPos1
  | _ => s.LedPos2

/-- Pixel colour of pixel `i` (spec-side accessor for `LedCol[i]`). -/
def ledColAt (s : TagState) : Nat → Nat
  | 0 => s.LedCol0
  | 1 => s.LedCol1
  | _ => s.LedCol2

/-- Decoding of a `pp` table byte `v` into the four port values
`(intda, intca, intdb, intcb)`, given the current `debugstatus` byte `d`:
the two nibble `switch` statements of `interrupt()` together with the
initialisation `intda=debugstatus; intca=0x48; intdb=0; intcb=0x04;`. -/
def decodePorts (v d : Nat) : Nat × Nat × Nat × Nat :=
  let intda := d
  let intca := 0x48
  let intdb := 0
  let intcb := 0x04
  let hi := v >>> 4
  let q :=
    if hi = 1 then (intda, intca, intdb ||| 0x01, 0x05)
    else if hi = 2 then (intda, intca, intdb ||| 0x02, 0x06)
    else if hi = 3 then (intda, intca, intdb ||| 0x08, 0x0c)
    else if hi = 4 then (intda, intca, intdb ||| 0x10, 0x14)
    else if hi = 5 then (intda, intca, intdb ||| 0x20, 0x24)
    else if hi = 6 then (intda, intca, intdb ||| 0x40, 0x44)
    else if hi = 7 then (intda, intca, intdb ||| 0x80, 0x84)
    else if hi = 8 then (intda ||| 0x01, 0x49, intdb, intcb)
    else if hi = 9 then (intda ||| 0x80, 0xc8, intdb, intcb)
    else (intda, intca, intdb, if hi = 0 then 0x04 else intcb)
  let lo := v &&& 0x0f
  if lo = 1 then (q.1, q.2.1, q.2.2.1, q.2.2.2 ||| 0x01)
  else if lo = 2 then (q.1, q.2.1, q.2.2.1, q.2.2.2 ||| 0x02)
  else if lo = 3 then (q.1, q.2.1, q.2.2.1, q.2.2.2 ||| 0x08)
  else if lo = 4 then (q.1, q.2.1, q.2.2.1, q.2.2.2 ||| 0x10)
  else if lo = 5 then (q.1, q.2.1, q.2.2.1, q.2.2.2 ||| 0x20)
  else if lo = 6 then (q.1, q.2.1, q.2.2.1, q.2.2.2 ||| 0x40)
  else if lo = 7 then (q.1, q.2.1, q.2.2.1, q.2.2.2 ||| 0x80)
  else if lo = 8 then (q.1, q.2.1 ||| 0x01, q.2.2.1, q.2.2.2)
  else if lo = 9 then (q.1, q.2.1 ||| 0x80, q.2.2.1, q.2.2.2)
  else (q.1, q.2.1, q.2.2.1, if lo = 0 then 0x04 else q.2.2.2)

/-- The nine pins that can drive a charlieplexed LED: `(false, k)` is PB bit
`k` (B0, B1, B3, B4, B5, B6, B7) and `(true, k)` is PA bit `k` (A0, A7).
PA3/PA6 (debug) and PB2 (IR) are deliberately not LED pins. -/
def ledPins : List (Bool × Nat) :=
  [(false, 0), (false, 1), (false, 3), (false, 4), (false, 5), (false, 6),
   (false, 7), (true, 0), (true, 7)]

/-- A pin is driven high when its port-control bit is set (output) and its
port-data bit is set.  `q = (intda, intca, intdb, intcb)`. -/
def drivenHigh (q : Nat × Nat × Nat × Nat) (pin : Bool × Nat) : Bool :=
  if pin.1 then q.2.1.testBit pin.2 && q.1.testBit pin.2
  else q.2.2.2.testBit pin.2 && q.2.2.1.testBit pin.2

/-- A pin is driven low when its port-control bit is set (output) and its
port-data bit is clear. -/
def drivenLow (q : Nat × Nat × Nat × Nat) (pin : Bool × Nat) : Bool :=
  if pin.1 then q.2.1.testBit pin.2 && !(q.1.testBit pin.2)
  else q.2.2.2.testBit pin.2 && !(q.2.2.1.testBit pin.2)

/-- Number of LED pins driven high by a decoded port image. -/
def countHigh (q : Nat × Nat × Nat × Nat) : Nat :=
  (ledPins.filter (fun pin => drivenHigh q pin)).length

/-- Number of LED pins driven low by a decoded port image. -/
def countLow (q : Nat × Nat × Nat × Nat) : Nat :=
  (ledPins.filter (fun pin => drivenLow q pin)).length

/-- The reachable values of the `debugstatus` byte: it is only ever assigned
0, or-ed with `SETPA3 = 0x08`, or-ed with `SETPA6 = 0x40`, or set to
`SETPA6` at boot. -/
def debugOk (d : Nat) : Prop := d = 0 ∨ d = 0x08 ∨ d = 0x40 ∨ d = 0x48

/-- `tocks()`: returns the current value of the 16-bit tock counter. -/
def tocks (s : TagState) : Nat := s.elapsedtocks

/-- Wraparound-safe 16-bit unsigned subtraction, as performed by
`currenttocks - previoustocks` on two `uint16_t` values. -/
def usub16 (a b : Nat) : Nat := (a % 65536 + 65536 - b % 65536) % 65536

/-- The busy-poll loop of `waituntiltocks`, evaluated over the list of
successive `tocks()` readings the loop observes: it keeps polling while
`(currenttocks - previoustocks) < ttt` and returns the first reading at
which the wraparound-safe difference reaches `ttt` (or `none` if the list
of readings is exhausted first). -/
def waitPoll (ttt prev : Nat) : List Nat → Option Nat
  | [] => none
  | c :: rest => if usub16 c prev < ttt then waitPoll ttt prev rest else some c

/-- The anchor update performed on return of `waituntiltocks`:
`previoustocks += ttt` on a `uint16_t`. -/
def waitAnchorStep (prev ttt : Nat) : Nat := (prev + ttt) % 65536

/-- `waituntiltocks(ttt, monitor)`, timing behaviour only: given the anchor
`previoustocks` and the successive `tocks()` readings, returns the reading at
which the loop exits paired with the updated anchor. -/
def waituntiltocks (ttt prev : Nat) (readings : List Nat) : Option (Nat × Nat) :=
  (waitPoll ttt prev readings).map (fun c => (c, waitAnchorStep prev ttt))

/-- The main-loop action on observing an IR edge (PA4 low) while monitoring:
`reset_irwatchdog(); mode=1; debugstatus|=SETPA3;`. -/
def irEdge (s : TagState) : TagState :=
  { s with irwatchdog := 0, mode := 1, debugstatus := s.debugstatus ||| 0x08 }

/-- The global state after `main()`'s initialisation, just before the first
timer interrupt: `mode=0`, `debugstatus=SETPA6`, `irwatchdog` preset to the
timeout, positions 0/8/16, colours `0x03/0x0c/0x30`, chase counters at their
target values, `randomnr=1`, `LedComTimePhase` and `elapsedtocks` zero. -/
def initState : TagState :=
  { debugstatus := 0x40, colorcount := 0, mode := 0,
    irwatchdog := irwatchdogtimeout,
    LedPos0 := 0, LedPos1 := 8, LedPos2 := 16,
    LedCol0 := 0x03, LedCol1 := 0x0c, LedCol2 := 0x30,
    LedComTimePhase := 0,
    LedChaseCount0 := chaserpositiontargetcount0,
    LedChaseCount1 := chaserpositiontargetcount1,
    LedChaseCount2 := chaserpositiontargetcount2,
    LedColorCount := chasercolortargetcount,
    randomnr := 1, randomposns0 := 0, randomposns1 := 0, randomposns2 := 0,
    elapsedtocks := 0 }

/-- A concrete state in Alerted mode with the watchdog just reset by an IR
edge, at a tock boundary. -/
def c1Start : TagState :=
  { initState with mode := 1, irwatchdog := 0, debugstatus := 0x48 }

/-- The memory-safety invariant: pixel positions and pending random
positions stay in 0..23, the colour index stays in 0..11, the mode is a
boolean flag and the display phase stays in 0..26. -/
def SafeInv (s : TagState) : Prop :=
  s.LedPos0 ≤ 23 ∧ s.LedPos1 ≤ 23 ∧ s.LedPos2 ≤ 23 ∧
  s.randomposns0 ≤ 23 ∧ s.randomposns1 ≤ 23 ∧ s.randomposns2 ≤ 23 ∧
  s.colorcount ≤ 11 ∧ s.mode ≤ 1 ∧ s.LedComTimePhase ≤ 26

instance (s : TagState) : Decidable (SafeInv s) := by
  unfold SafeInv; infer_instance

instance (d : Nat) : Decidable (debugOk d) := by
  unfold debugOk; infer_instance

/-! ### Projections of the phase increment -/

@[simp] theorem bumpPhase_debugstatus (t : TagState) : (bumpPhase t).debugstatus = t.debugstatus := rfl

@[simp] theorem bumpPhase_colorcount (t : TagState) : (bumpPhase t).colorcount = t.colorcount := rfl

@[simp] theorem bumpPhase_mode (t : TagState) : (bumpPhase t).mode = t.mode := rfl

@[simp] theorem bumpPhase_irwatchdog (t : TagState) : (bumpPhase t).irwatchdog = t.irwatchdog := rfl

@[simp] theorem bumpPhase_LedPos0 (t : TagState) : (bumpPhase t).LedPos0 = t.LedPos0 := rfl

@[simp] theorem bumpPhase_LedPos1 (t : TagState) : (bumpPhase t).LedPos1 = t.LedPos1 := rfl

@[simp] theorem bumpPhase_LedPos2 (t : TagState) : (bumpPhase t).LedPos2 = t.LedPos2 := rfl

@[simp] theorem bumpPhase_LedCol0 (t : TagState) : (bumpPhase t).LedCol0 = t.LedCol0 := rfl

@[simp] theorem bumpPhase_LedCol1 (t : TagState) : (bumpPhase t).LedCol1 = t.LedCol1 := rfl

@[simp] theorem bumpPhase_LedCol2 (t : TagState) : (bumpPhase t).LedCol2 = t.LedCol2 := rfl

@[simp] theorem bumpPhase_phase (t : TagState) : (bumpPhase t).LedComTimePhase = (t.LedComTimePhase + 1) % 256 := rfl

@[simp] theorem bumpPhase_LedChaseCount0 (t : TagState) : (bumpPhase t).LedChaseCount0 = t.LedChaseCount0 := rfl

@[simp] theorem bumpPhase_LedChaseCount1 (t : TagState) : (bumpPhase t).LedChaseCount1 = t.LedChaseCount1 := rfl

@[simp] theorem bumpPhase_LedChaseCount2 (t : TagState) : (bumpPhase t).LedChaseCount2 = t.LedChaseCount2 := rfl

@[simp] theorem bumpPhase_LedColorCount (t : TagState) : (bumpPhase t).LedColorCount = t.LedColorCount := rfl

@[simp] theorem bumpPhase_randomnr (t : TagState) : (bumpPhase t).randomnr = t.randomnr := rfl

@[simp] theorem bumpPhase_randomposns0 (t : TagState) : (bumpPhase t).randomposns0 = t.randomposns0 := rfl

@[simp] theorem bumpPhase_randomposns1 (t : TagState) : (bumpPhase t).randomposns1 = t.randomposns1 := rfl

@[simp] theorem bumpPhase_randomposns2 (t : TagState) : (bumpPhase t).randomposns2 = t.randomposns2 := rfl

@[simp] theorem bumpPhase_elapsedtocks (t : TagState) : (bumpPhase t).elapsedtocks = t.elapsedtocks := rfl

/-! ### Per-step preservation lemmas -/

/-! ### Equation lemmas for the per-phase work -/

theorem phaseWorkEq0 (s : TagState) :
    phaseWork 0 s = { s with LedChaseCount0 := (s.LedChaseCount0 + 255) % 256 } := rfl

theorem phaseWorkEq1 (s : TagState) :
    phaseWork 1 s = (if s.LedChaseCount0 = 0 then
      (if s.mode ≠ 0 then { s with LedPos0 := chaseAdvCW s.LedPos0 }
       else { s with LedPos0 := s.randomposns0 })
     else s) := rfl

theorem phaseWorkEq2 (s : TagState) :
    phaseWork 2 s = (if s.LedChaseCount0 = 0 then { s with LedChaseCount0 := chaserpositiontargetcount0 } else s) := rfl

theorem phaseWorkEq3 (s : TagState) :
    phaseWork 3 s = { s with LedChaseCount1 := (s.LedChaseCount1 + 255) % 256 } := rfl

theorem phaseWorkEq4 (s : TagState) :
    phaseWork 4 s = (if s.LedChaseCount1 = 0 then
      (if s.mode ≠ 0 then { s with LedPos1 := chaseAdvCCW s.LedPos1 }
       else { s with LedPos1 := s.randomposns1 })
     else s) := rfl

theorem phaseWorkEq5 (s : TagState) :
    phaseWork 5 s = (if s.LedChaseCount1 = 0 then { s with LedChaseCount1 := chaserpositiontargetcount1 } else s) := rfl

theorem phaseWorkEq6 (s : TagState) :
    phaseWork 6 s = { s with LedChaseCount2 := (s.LedChaseCount2 + 255) % 256 } := rfl

theorem phaseWorkEq7 (s : TagState) :
    phaseWork 7 s = (if s.LedChaseCount2 = 0 then
      (if s.mode ≠ 0 then { s with LedPos2 := chaseAdvCW s.LedPos2 }
       else { s with LedPos2 := s.randomposns2 })
     else s) := rfl

theorem phaseWorkEq8 (s : TagState) :
    phaseWork 8 s = (if s.LedChaseCount2 = 0 then { s with LedChaseCount2 := chaserpositiontargetcount2 } else s) := rfl

theorem phaseWorkEq9 (s : TagState) :
    phaseWork 9 s = { s with randomnr := makerandom s.randomnr } := rfl

theorem phaseWorkEq10 (s : TagState) :
    phaseWork 10 s = { s with randomposns0 := randomAccept s.randomnr s.randomposns0 } := rfl

theorem phaseWorkEq11 (s : TagState) :
    phaseWork 11 s = { s with randomnr := makerandom s.randomnr } := rfl

theorem phaseWorkEq12 (s : TagState) :
    phaseWork 12 s = { s with randomposns1 := randomAccept s.randomnr s.randomposns1 } := rfl

theorem phaseWorkEq13 (s : TagState) :
    phaseWork 13 s = { s with randomnr := makerandom s.randomnr } := rfl

theorem phaseWorkEq14 (s : TagState) :
    phaseWork 14 s = { s with randomposns2 := randomAccept s.randomnr s.randomposns2 } := rfl

theorem phaseWorkEq15 (s : TagState) :
    phaseWork 15 s = { s with randomnr := makerandom s.randomnr } := rfl

theorem phaseWorkEq16 (s : TagState) :
    phaseWork 16 s = { s with randomposns0 := randomAccept s.randomnr s.randomposns0 } := rfl

theorem phaseWorkEq17 (s : TagState) :
    phaseWork 17 s = { s with randomnr := makerandom s.randomnr } := rfl

theorem phaseWorkEq18 (s : TagState) :
    phaseWork 18 s = { s with randomposns1 := randomAccept s.randomnr s.randomposns1 } := rfl

theorem phaseWorkEq19 (s : TagState) :
    phaseWork 19 s = { s with randomnr := makerandom s.randomnr } := rfl

theorem phaseWorkEq20 (s : TagState) :
    phaseWork 20 s = { s with randomposns2 := randomAccept s.randomnr s.randomposns2 } := rfl

theorem phaseWorkEq21 (s : TagState) :
    phaseWork 21 s = { s with LedColorCount := (s.LedColorCount + 255) % 256 } := rfl

theorem phaseWorkEq22 (s : TagState) :
    phaseWork 22 s = (if s.LedColorCount = 0 then
      { s with LedColorCount := chasercolortargetcount,
               colorcount := if s.colorcount > 10 then 0 else (s.colorcount + 1) % 256 }
     else s) := rfl

theorem phaseWorkEq23 (s : TagState) :
    phaseWork 23 s = { s with LedCol0 := colors.getD s.colorcount 0 } := rfl

theorem phaseWorkEq24 (s : TagState) :
    phaseWork 24 s = { s with LedCol1 := colors.getD (colIdx1 s.colorcount) 0 } := rfl

theorem phaseWorkEq25 (s : TagState) :
    phaseWork 25 s = { s with LedCol2 := colors.getD (colIdx2 s.colorcount) 0 } := rfl

theorem phaseWorkEq26 (s : TagState) :
    phaseWork 26 s =
      (if s.irwatchdog < irwatchdogtimeout then
        { s with LedComTimePhase := 255, irwatchdog := s.irwatchdog + 1,
                 debugstatus := s.debugstatus ||| 0x40,
                 elapsedtocks := (s.elapsedtocks + 1) % 65536 }
       else
        { s with LedComTimePhase := 255, mode := 0, debugstatus := 0,
                 elapsedtocks := (s.elapsedtocks + 1) % 65536 }) := by
  simp only [phaseWork]
  norm_num
  split_ifs <;> rfl

theorem phaseWorkEqGe (p : Nat) (s : TagState) (h : 27 ≤ p) :
    phaseWork p s = s := by
  have h0 : p ≠ 0 := by omega
  have h1 : p ≠ 1 := by omega
  have h2 : p ≠ 2 := by omega
  have h3 : p ≠ 3 := by omega
  have h4 : p ≠ 4 := by omega
  have h5 : p ≠ 5 := by omega
  have h6 : p ≠ 6 := by omega
  have h7 : p ≠ 7 := by omega
  have h8 : p ≠ 8 := by omega
  have h9 : p ≠ 9 := by omega
  have h10 : p ≠ 10 := by omega
  have h11 : p ≠ 11 := by omega
  have h12 : p ≠ 12 := by omega
  have h13 : p ≠ 13 := by omega
  have h14 : p ≠ 14 := by omega
  have h15 : p ≠ 15 := by omega
  have h16 : p ≠ 16 := by omega
  have h17 : p ≠ 17 := by omega
  have h18 : p ≠ 18 := by omega
  have h19 : p ≠ 19 := by omega
  have h20 : p ≠ 20 := by omega
  have h21 : p ≠ 21 := by omega
  have h22 : p ≠ 22 := by omega
  have h23 : p ≠ 23 := by omega
  have h24 : p ≠ 24 := by omega
  have h25 : p ≠ 25 := by omega
  have h26 : p ≠ 26 := by omega
  simp only [phaseWork]
  rw [if_neg h0, if_neg h1, if_neg h2, if_neg h3, if_neg h4, if_neg h5, if_neg h6, if_neg h7, if_neg h8, if_neg h9, if_neg h10, if_neg h11, if_neg h12, if_neg h13, if_neg h14, if_neg h15, if_neg h16, if_neg h17, if_neg h18, if_neg h19, if_neg h20, if_neg h21, if_neg h22, if_neg h23, if_neg h24, if_neg h25, if_neg h26]

/-! ### Per-step preservation lemmas -/

theorem phaseWork_protocol (p : Nat) (s : TagState) (h : p ≠ 26) :
    (phaseWork p s).irwatchdog = s.irwatchdog ∧ (phaseWork p s).mode = s.mode ∧
    (phaseWork p s).debugstatus = s.debugstatus ∧
    (phaseWork p s).elapsedtocks = s.elapsedtocks ∧
    (phaseWork p s).LedComTimePhase = s.LedComTimePhase := by
  have hp : p = 0 ∨ p = 1 ∨ p = 2 ∨ p = 3 ∨ p = 4 ∨ p = 5 ∨ p = 6 ∨ p = 7 ∨ p = 8 ∨ p = 9 ∨ p = 10 ∨ p = 11 ∨ p = 12 ∨ p = 13 ∨ p = 14 ∨ p = 15 ∨ p = 16 ∨ p = 17 ∨ p = 18 ∨ p = 19 ∨ p = 20 ∨ p = 21 ∨ p = 22 ∨ p = 23 ∨ p = 24 ∨ p = 25 ∨ 27 ≤ p := by omega
  rcases hp with rfl|rfl|rfl|rfl|rfl|rfl|rfl|rfl|rfl|rfl|rfl|rfl|rfl|rfl|rfl|rfl|rfl|rfl|rfl|rfl|rfl|rfl|rfl|rfl|rfl|rfl|hge
  · rw [phaseWorkEq0]; exact ⟨rfl, rfl, rfl, rfl, rfl⟩
  · rw [phaseWorkEq1]; split_ifs <;> exact ⟨rfl, rfl, rfl, rfl, rfl⟩
  · rw [phaseWorkEq2]; split_ifs <;> exact ⟨rfl, rfl, rfl, rfl, rfl⟩
  · rw [phaseWorkEq3]; exact ⟨rfl, rfl, rfl, rfl, rfl⟩
  · rw [phaseWorkEq4]; split_ifs <;> exact ⟨rfl, rfl, rfl, rfl, rfl⟩
  · rw [phaseWorkEq5]; split_ifs <;> exact ⟨rfl, rfl, rfl, rfl, rfl⟩
  · rw [phaseWorkEq6]; exact ⟨rfl, rfl, rfl, rfl, rfl⟩
  · rw [phaseWorkEq7]; split_ifs <;> exact ⟨rfl, rfl, rfl, rfl, rfl⟩
  · rw [phaseWorkEq8]; split_ifs <;> exact ⟨rfl, rfl, rfl, rfl, rfl⟩
  · rw [phaseWorkEq9]; exact ⟨rfl, rfl, rfl, rfl, rfl⟩
  · rw [phaseWorkEq10]; exact ⟨rfl, rfl, rfl, rfl, rfl⟩
  · rw [phaseWorkEq11]; exact ⟨rfl, rfl, rfl, rfl, rfl⟩
  · rw [phaseWorkEq12]; exact ⟨rfl, rfl, rfl, rfl, rfl⟩
  · rw [phaseWorkEq13]; exact ⟨rfl, rfl, rfl, rfl, rfl⟩
  · rw [phaseWorkEq14]; exact ⟨rfl, rfl, rfl, rfl, rfl⟩
  · rw [phaseWorkEq15]; exact ⟨rfl, rfl, rfl, rfl, rfl⟩
  · rw [phaseWorkEq16]; exact ⟨rfl, rfl, rfl, rfl, rfl⟩
  · rw [phaseWorkEq17]; exact ⟨rfl, rfl, rfl, rfl, rfl⟩
  · rw [phaseWorkEq18]; exact ⟨rfl, rfl, rfl, rfl, rfl⟩
  · rw [phaseWorkEq19]; exact ⟨rfl, rfl, rfl, rfl, rfl⟩
  · rw [phaseWorkEq20]; exact ⟨rfl, rfl, rfl, rfl, rfl⟩
  · rw [phaseWorkEq21]; exact ⟨rfl, rfl, rfl, rfl, rfl⟩
  · rw [phaseWorkEq22]; split_ifs <;> exact ⟨rfl, rfl, rfl, rfl, rfl⟩
  · rw [phaseWorkEq23]; exact ⟨rfl, rfl, rfl, rfl, rfl⟩
  · rw [phaseWorkEq24]; exact ⟨rfl, rfl, rfl, rfl, rfl⟩
  · rw [phaseWorkEq25]; exact ⟨rfl, rfl, rfl, rfl, rfl⟩
  · rw [phaseWorkEqGe p s hge]; exact ⟨rfl, rfl, rfl, rfl, rfl⟩

theorem step_protocol (s : TagState) (h : s.LedComTimePhase ≠ 26) :
    wdTriple (interruptStep s) = wdTriple s ∧
    (interruptStep s).elapsedtocks = s.elapsedtocks ∧
    (interruptStep s).LedComTimePhase = (s.LedComTimePhase + 1) % 256 := by
  obtain ⟨h1, h2, h3, h4, h5⟩ := phaseWork_protocol s.LedComTimePhase s h
  unfold interruptStep wdTriple
  simp [h1, h2, h3, h4, h5]

theorem step_phase26 (s : TagState) (h : s.LedComTimePhase = 26) :
    wdTriple (interruptStep s) = wdStep (wdTriple s) ∧
    (interruptStep s).elapsedtocks = (s.elapsedtocks + 1) % 65536 ∧
    (interruptStep s).LedComTimePhase = 0 := by
  unfold interruptStep wdTriple wdStep
  rw [h, phaseWorkEq26]
  split_ifs <;> simp

/-! ### Tock-level lemmas -/

theorem iter_protocol (s : TagState) (h0 : s.LedComTimePhase = 0) :
    ∀ k, k ≤ 26 → (interruptStep^[k] s).LedComTimePhase = k ∧
      wdTriple (interruptStep^[k] s) = wdTriple s ∧
      (interruptStep^[k] s).elapsedtocks = s.elapsedtocks := by
  intro k
  induction k with
  | zero =>
    intro _
    refine ⟨by simpa using h0, by simp, by simp⟩
  | succ n ih =>
    intro hn
    obtain ⟨hp, hw, he⟩ := ih (by omega)
    rw [Function.iterate_succ_apply']
    obtain ⟨hw2, he2, hp2⟩ := step_protocol (interruptStep^[n] s) (by rw [hp]; omega)
    refine ⟨?_, ?_, ?_⟩
    · rw [hp2, hp]; omega
    · rw [hw2, hw]
    · rw [he2, he]

theorem tock_step (s : TagState) (h0 : s.LedComTimePhase = 0) :
    (interruptStep^[27] s).LedComTimePhase = 0 ∧
    wdTriple (interruptStep^[27] s) = wdStep (wdTriple s) ∧
    (interruptStep^[27] s).elapsedtocks = (s.elapsedtocks + 1) % 65536 := by
  obtain ⟨hp, hw, he⟩ := iter_protocol s h0 26 (by omega)
  have h27 : interruptStep^[27] s = interruptStep (interruptStep^[26] s) := by
    rw [show (27 : Nat) = 26 + 1 from rfl, Function.iterate_succ_apply']
  obtain ⟨hw2, he2, hp2⟩ := step_phase26 (interruptStep^[26] s) hp
  rw [h27]
  exact ⟨hp2, by rw [hw2, hw], by rw [he2, he]⟩

theorem tocks_watchdog (s : TagState) (h0 : s.LedComTimePhase = 0) (hm : s.mode = 1)
    (hw : s.irwatchdog = 0) :
    ∀ n, n ≤ irwatchdogtimeout → (interruptStep^[27 * n] s).LedComTimePhase = 0 ∧
      (interruptStep^[27 * n] s).irwatchdog = n ∧ (interruptStep^[27 * n] s).mode = 1 := by
  intro n
  induction n with
  | zero =>
    intro _
    constructor
    · simpa using h0
    constructor
    · simpa using hw
    · simpa using hm
  | succ n ih =>
    intro hn
    obtain ⟨hp, hwd, hmo⟩ := ih (by omega)
    have hmul : 27 * (n + 1) = 27 + 27 * n := by ring
    rw [hmul, Function.iterate_add_apply]
    obtain ⟨hp2, htrip, _⟩ := tock_step (interruptStep^[27 * n] s) hp
    simp only [wdTriple, wdStep, hwd, hmo] at htrip
    rw [if_pos (show n < irwatchdogtimeout by unfold irwatchdogtimeout at hn ⊢; omega)] at htrip
    simp only [Prod.mk.injEq] at htrip
    exact ⟨hp2, htrip.1, htrip.2.1⟩

theorem tock_at_saturation (a : TagState) (hp : a.LedComTimePhase = 0)
    (hwd : a.irwatchdog = irwatchdogtimeout) :
    (interruptStep^[27] a).mode = 0 ∧ (interruptStep^[27] a).debugstatus = 0 := by
  obtain ⟨_, htrip, _⟩ := tock_step a hp
  simp only [wdTriple, wdStep, hwd] at htrip
  rw [if_neg (by omega)] at htrip
  simp only [Prod.mk.injEq] at htrip
  exact ⟨htrip.2.1, htrip.2.2⟩

/-! ### C1: watchdog timeout round-trip from an IR edge -/

/-- C1 (counterexample): in the concrete Alerted state with the watchdog just
reset to 0, after 4444 tocks the mode has NOT reverted to Listening — the
claim that the 4444th tock reverts the mode is false on the code. -/
theorem c1_counterexample :
    (interruptStep^[27 * 4444] c1Start).mode = 1 ∧
    ¬ (interruptStep^[27 * 4444] c1Start).mode = 0 := by
  have h := tocks_watchdog c1Start rfl rfl rfl 4444 (by norm_num [irwatchdogtimeout])
  exact ⟨h.2.2, by rw [h.2.2]; omega⟩

set_option maxRecDepth 4000 in
/-- C1 (amended): starting in Alerted mode with the watchdog just reset to 0
at a tock boundary, with no further IR edge, the mode is still Alerted after
4443 further tocks and still after 4444 tocks (the watchdog has then merely
saturated at the timeout value); at the 4445th tock the mode reverts to
Listening (mode 0) and debugstatus is cleared to 0. -/
theorem c1_watchdog_timeout (s : TagState) (h0 : s.LedComTimePhase = 0)
    (hm : s.mode = 1) (hw : s.irwatchdog = 0) :
    (interruptStep^[27 * 4443] s).mode = 1 ∧
    (interruptStep^[27 * 4444] s).mode = 1 ∧
    (interruptStep^[27 * 4445] s).mode = 0 ∧
    (interruptStep^[27 * 4445] s).debugstatus = 0 := by
  refine ⟨(tocks_watchdog s h0 hm hw 4443 (by norm_num [irwatchdogtimeout])).2.2,
    (tocks_watchdog s h0 hm hw 4444 (by norm_num [irwatchdogtimeout])).2.2, ?_⟩
  obtain ⟨hp, hwd, hmo⟩ := tocks_watchdog s h0 hm hw 4444 (by norm_num [irwatchdogtimeout])
  have hsplit : (27 * 4445 : Nat) = 27 + 27 * 4444 := by norm_num
  rw [hsplit, Function.iterate_add_apply]
  exact tock_at_saturation (interruptStep^[27 * 4444] s) hp hwd

/-- C1 (witness): the amended theorem applied to the concrete post-IR-edge
state. -/
theorem c1_witness :
    (interruptStep^[27 * 4445] c1Start).mode = 0 ∧
    (interruptStep^[27 * 4445] c1Start).debugstatus = 0 :=
  ⟨(c1_watchdog_timeout c1Start rfl rfl rfl).2.2.1,
   (c1_watchdog_timeout c1Start rfl rfl rfl).2.2.2⟩

/-! ### C2: boot state of the protocol state machine -/

/-- C2 (counterexample): at boot — after `main()`'s initialisation and before
the first tock — the mode is 0 (Listening/RandomMode), not ChaserMode as the
claim states. -/
theorem c2_counterexample : initState.mode = 0 ∧ ¬ initState.mode = 1 := by
  constructor
  · rfl
  · intro h
    exact absurd h (by norm_num [initState])

/-- C2 (amended): at boot the state machine is in Listening mode (mode 0),
with the watchdog preset to the timeout value 4444 (so the tag starts "as if
it had just timed out"); with no IR input, within one tock (at the first
phase-26 evaluation) the mode is (still) Listening and the status indicator
debugstatus is cleared to 0. -/
theorem c2_boot_state :
    initState.mode = 0 ∧ initState.irwatchdog = 4444 ∧
    (interruptStep^[27] initState).mode = 0 ∧
    (interruptStep^[27] initState).debugstatus = 0 := by
  exact ⟨rfl, rfl, tock_at_saturation initState rfl rfl⟩

/-! ### C3: tock counting and wraparound -/

/-- C3: for every interrupt invocation, the value returned by `tocks()`
increases by exactly 1 when the entry phase is 26 and by 0 at the other 26
phases, modulo 2^16; and along the whole execution from the initial state
the tock counter equals the number of completed 27-tick cycles modulo 2^16
(so it wraps from 65535 to 0 after 65536 tocks) while the phase cycles
through 0..26. -/
theorem c3_tock_counting :
    (∀ s : TagState, s.LedComTimePhase ≤ 26 → s.elapsedtocks < 65536 →
      tocks (interruptStep s) =
        (tocks s + if s.LedComTimePhase = 26 then 1 else 0) % 65536) ∧
    (∀ n : Nat, tocks (interruptStep^[n] initState) = (n / 27) % 65536 ∧
      (interruptStep^[n] initState).LedComTimePhase = n % 27) := by
  constructor
  · intro s _ he
    by_cases h : s.LedComTimePhase = 26
    · obtain ⟨_, he2, _⟩ := step_phase26 s h
      rw [if_pos h]
      simpa [tocks] using he2
    · obtain ⟨_, he2, _⟩ := step_protocol s h
      rw [if_neg h]
      simp only [tocks, he2]
      omega
  · intro n
    induction n with
    | zero => exact ⟨rfl, rfl⟩
    | succ n ih =>
      obtain ⟨ht, hp⟩ := ih
      simp only [tocks] at ht ⊢
      rw [Function.iterate_succ_apply']
      by_cases h : (interruptStep^[n] initState).LedComTimePhase = 26
      · have hmod : n % 27 = 26 := by rw [hp] at h; exact h
        obtain ⟨_, he2, hp2⟩ := step_phase26 _ h
        constructor
        · rw [he2, ht]; omega
        · rw [hp2]; omega
      · have hmod : n % 27 ≠ 26 := by rw [hp] at h; exact h
        obtain ⟨_, he2, hp2⟩ := step_protocol _ h
        constructor
        · rw [he2, ht]; omega
        · rw [hp2, hp]; omega

/-- C3 (witness): the per-interrupt tock-delta property applied to the
initial state. -/
theorem c3_witness :
    initState.LedComTimePhase ≤ 26 ∧ initState.elapsedtocks < 65536 ∧
    tocks (interruptStep initState) =
      (tocks initState + if initState.LedComTimePhase = 26 then 1 else 0) % 65536 :=
  ⟨by decide, by decide, c3_tock_counting.1 initState (by decide) (by decide)⟩

/-! ### C4: waituntiltocks timing -/

theorem waitPoll_none_iff (ttt prev : Nat) :
    ∀ readings, waitPoll ttt prev readings = none ↔
      ∀ c ∈ readings, usub16 c prev < ttt := by
  intro readings
  induction readings with
  | nil => simp [waitPoll]
  | cons d rest ih =>
    simp only [waitPoll]
    split_ifs with hd
    · simp [ih, hd]
    · simp [hd]

theorem waitPoll_some_first (ttt prev : Nat) :
    ∀ readings c, waitPoll ttt prev readings = some c →
      ∃ l1 l2, readings = l1 ++ c :: l2 ∧ (∀ x ∈ l1, usub16 x prev < ttt) ∧
        ttt ≤ usub16 c prev := by
  intro readings
  induction readings with
  | nil => intro c h; simp [waitPoll] at h
  | cons d rest ih =>
    intro c h
    simp only [waitPoll] at h
    split_ifs at h with hd
    · obtain ⟨l1, l2, hsplit, hall, hc⟩ := ih c h
      refine ⟨d :: l1, l2, by rw [hsplit]; rfl, ?_, hc⟩
      intro x hx
      rcases List.mem_cons.mp hx with rfl | hx2
      · exact hd
      · exact hall x hx2
    · obtain rfl : d = c := by injection h
      exact ⟨[], rest, rfl, by simp, by omega⟩

theorem waitAnchor_foldl :
    ∀ ds (a : Nat), a < 65536 →
      List.foldl waitAnchorStep a ds = (a + ds.sum) % 65536 := by
  intro ds
  induction ds with
  | nil => intro a ha; simp [Nat.mod_eq_of_lt ha]
  | cons d rest ih =>
    intro a ha
    simp only [List.foldl_cons, List.sum_cons, waitAnchorStep]
    rw [ih ((a + d) % 65536) (Nat.mod_lt _ (by norm_num))]
    omega

/-- C4: `waituntiltocks` returns exactly at the first `tocks()` reading whose
wraparound-safe 16-bit distance from the anchor reaches or exceeds `ttt`
(and keeps polling forever if no reading does); on return the anchor
advances by exactly `ttt` modulo 2^16, not to the observed reading; hence
after `n` consecutive waits the anchor equals the starting anchor plus the
sum of the requested durations modulo 2^16. -/
theorem c4_waituntiltocks :
    (∀ ttt prev readings, waituntiltocks ttt prev readings = none ↔
      ∀ c ∈ readings, usub16 c prev < ttt) ∧
    (∀ ttt prev readings c a, waituntiltocks ttt prev readings = some (c, a) →
      (∃ l1 l2, readings = l1 ++ c :: l2 ∧ (∀ x ∈ l1, usub16 x prev < ttt) ∧
        ttt ≤ usub16 c prev) ∧ a = (prev + ttt) % 65536) ∧
    (∀ (a : Nat) ds, a < 65536 →
      List.foldl waitAnchorStep a ds = (a + ds.sum) % 65536) := by
  refine ⟨?_, ?_, fun a ds ha => waitAnchor_foldl ds a ha⟩
  · intro ttt prev readings
    rw [waituntiltocks, Option.map_eq_none']
    exact waitPoll_none_iff ttt prev readings
  · intro ttt prev readings c a h
    rw [waituntiltocks, Option.map_eq_some'] at h
    obtain ⟨b, hb, hba⟩ := h
    rw [Prod.mk.injEq] at hba
    obtain ⟨hbc, hanc⟩ := hba
    subst hbc
    exact ⟨waitPoll_some_first ttt prev readings b hb, by rw [← hanc]; rfl⟩

/-- C4 (witness): a concrete wait of 2 tocks across the 16-bit wraparound
(anchor 65535, readings 65535, 0, 1), and a concrete anchor fold. -/
theorem c4_witness :
    ((∃ l1 l2, ([65535, 0, 1] : List Nat) = l1 ++ 1 :: l2 ∧
       (∀ x ∈ l1, usub16 x 65535 < 2) ∧ 2 ≤ usub16 1 65535) ∧
      (1 : Nat) = (65535 + 2) % 65536) ∧
    List.foldl waitAnchorStep 5 [3, 4] = (5 + ([3, 4] : List Nat).sum) % 65536 :=
  ⟨c4_waituntiltocks.2.1 2 65535 [65535, 0, 1] 1 1 rfl,
   c4_waituntiltocks.2.2 5 [3, 4] (by norm_num)⟩

/-! ### C5: display multiplexer phase assignment -/

/-- C5: at every phase 0..26 with in-range pixel positions, the multiplexer
selects either the sentinel 72 or a single component-LED index in 0..71;
phases 0..8 test the low intensity bit of channel `phase % 3` of pixel
`phase / 3`; and each phase k in 9..17 tests the high intensity bit of
channel `(k-9) % 3` of pixel `(k-9) / 3`, with phase k+9 selecting exactly
the same pixel/channel high bit. -/
theorem c5_multiplexer :
    ∀ (phase : Nat) (s : TagState), s.LedPos0 ≤ 23 → s.LedPos1 ≤ 23 →
      s.LedPos2 ≤ 23 → phase ≤ 26 →
      (selectInttAt phase s = 72 ∨ selectInttAt phase s ≤ 71) ∧
      (phase ≤ 8 → selectInttAt phase s =
        (if ledColAt s (phase / 3) &&& 2 ^ (2 * (phase % 3)) ≠ 0 then
          ledPosAt s (phase / 3) + 24 * (phase % 3) else 72)) ∧
      (9 ≤ phase → phase ≤ 17 →
        selectInttAt (phase + 9) s = selectInttAt phase s ∧
        selectInttAt phase s =
          (if ledColAt s ((phase - 9) / 3) &&& 2 ^ (2 * ((phase - 9) % 3) + 1) ≠ 0 then
            ledPosAt s ((phase - 9) / 3) + 24 * ((phase - 9) % 3) else 72)) := by
  intro phase s h0 h1 h2 hph
  refine ⟨?_, ?_, ?_⟩
  · interval_cases phase <;>
      (simp only [selectInttAt]; norm_num; try split_ifs <;> omega)
  · intro h8
    interval_cases phase <;>
      (simp only [selectInttAt, ledColAt, ledPosAt]; norm_num)
  · intro h9 h17
    interval_cases phase <;>
      (constructor <;> (simp only [selectInttAt, ledColAt, ledPosAt]; norm_num))

/-- C5 (witness): the multiplexer properties applied at phase 0 in the boot
state. -/
theorem c5_witness :
    (selectInttAt 0 initState = 72 ∨ selectInttAt 0 initState ≤ 71) ∧
    ((0 : Nat) ≤ 8 → selectInttAt 0 initState =
      (if ledColAt initState (0 / 3) &&& 2 ^ (2 * (0 % 3)) ≠ 0 then
        ledPosAt initState (0 / 3) + 24 * (0 % 3) else 72)) ∧
    ((9 : Nat) ≤ 0 → (0 : Nat) ≤ 17 →
      selectInttAt (0 + 9) initState = selectInttAt 0 initState ∧
      selectInttAt 0 initState =
        (if ledColAt initState ((0 - 9) / 3) &&& 2 ^ (2 * ((0 - 9) % 3) + 1) ≠ 0 then
          ledPosAt initState ((0 - 9) / 3) + 24 * ((0 - 9) % 3) else 72)) :=
  c5_multiplexer 0 initState (by decide) (by decide) (by decide) (by decide)

/-! ### C6: pin-pattern legality -/

/-- C6: for every component-LED index 0..72 and every reachable debugstatus
byte, the decoded port drive pattern drives at most one LED pin high, at
most one LED pin low, never the same pin both ways, and the sentinel index
72 drives no LED pin at all. -/
theorem c6_pin_pattern :
    ∀ d, debugOk d → ∀ i, i < 73 →
      countHigh (decodePorts (pp.getD i 0) d) ≤ 1 ∧
      countLow (decodePorts (pp.getD i 0) d) ≤ 1 ∧
      (∀ pin ∈ ledPins, ¬(drivenHigh (decodePorts (pp.getD i 0) d) pin = true ∧
        drivenLow (decodePorts (pp.getD i 0) d) pin = true)) ∧
      (i = 72 → countHigh (decodePorts (pp.getD i 0) d) = 0 ∧
        countLow (decodePorts (pp.getD i 0) d) = 0) := by
  intro d hd
  rcases hd with rfl | rfl | rfl | rfl <;> decide

/-- C6 (witness): the pin-pattern legality applied to index 0 (red channel
of position 0) with debugstatus 0, and to the sentinel index 72. -/
theorem c6_witness :
    (countHigh (decodePorts (pp.getD 0 0) 0) ≤ 1 ∧
     countLow (decodePorts (pp.getD 0 0) 0) ≤ 1 ∧
     (∀ pin ∈ ledPins, ¬(drivenHigh (decodePorts (pp.getD 0 0) 0) pin = true ∧
       drivenLow (decodePorts (pp.getD 0 0) 0) pin = true)) ∧
     ((0 : Nat) = 72 → countHigh (decodePorts (pp.getD 0 0) 0) = 0 ∧
       countLow (decodePorts (pp.getD 0 0) 0) = 0)) ∧
    (countHigh (decodePorts (pp.getD 72 0) 0) ≤ 1 ∧
     countLow (decodePorts (pp.getD 72 0) 0) ≤ 1 ∧
     (∀ pin ∈ ledPins, ¬(drivenHigh (decodePorts (pp.getD 72 0) 0) pin = true ∧
       drivenLow (decodePorts (pp.getD 72 0) 0) pin = true)) ∧
     ((72 : Nat) = 72 → countHigh (decodePorts (pp.getD 72 0) 0) = 0 ∧
       countLow (decodePorts (pp.getD 72 0) 0) = 0)) :=
  ⟨c6_pin_pattern 0 (by decide) 0 (by decide),
   c6_pin_pattern 0 (by decide) 72 (by decide)⟩

/-! ### C7: random-draw rejection -/

theorem mask_bound (r : Nat) (h : r &&& 0x18 ≠ 0x18) : r &&& 0x1f ≤ 23 := by
  have h31 : r &&& 0x1f ≤ 31 := Nat.and_le_right
  have heq : (r &&& 0x1f) &&& 0x18 = r &&& 0x18 := by
    rw [Nat.and_assoc, show (0x1f &&& 0x18 : Nat) = 0x18 from by decide]
  have key : ∀ m, m < 32 → m &&& 0x18 ≠ 0x18 → m ≤ 23 := by decide
  exact key (r &&& 0x1f) (by omega) (by rw [heq]; exact h)

theorem randomAccept_reject (r old : Nat) (h : r &&& 0x18 = 0x18) :
    randomAccept r old = old := by
  simp [randomAccept, h]

theorem randomAccept_cases (r old : Nat) :
    randomAccept r old = old ∨
      (randomAccept r old = r &&& 0x1f ∧ randomAccept r old ≤ 23) := by
  unfold randomAccept
  split_ifs with h
  · exact Or.inr ⟨rfl, mask_bound r h⟩
  · exact Or.inl rfl

theorem phaseWork_randomposns (p : Nat) (s : TagState) :
    ((phaseWork p s).randomposns0 = s.randomposns0 ∨
      (phaseWork p s).randomposns0 = randomAccept s.randomnr s.randomposns0) ∧
    ((phaseWork p s).randomposns1 = s.randomposns1 ∨
      (phaseWork p s).randomposns1 = randomAccept s.randomnr s.randomposns1) ∧
    ((phaseWork p s).randomposns2 = s.randomposns2 ∨
      (phaseWork p s).randomposns2 = randomAccept s.randomnr s.randomposns2) := by
  have hp : p = 0 ∨ p = 1 ∨ p = 2 ∨ p = 3 ∨ p = 4 ∨ p = 5 ∨ p = 6 ∨ p = 7 ∨ p = 8 ∨ p = 9 ∨ p = 10 ∨ p = 11 ∨ p = 12 ∨ p = 13 ∨ p = 14 ∨ p = 15 ∨ p = 16 ∨ p = 17 ∨ p = 18 ∨ p = 19 ∨ p = 20 ∨ p = 21 ∨ p = 22 ∨ p = 23 ∨ p = 24 ∨ p = 25 ∨ p = 26 ∨ 27 ≤ p := by omega
  rcases hp with rfl|rfl|rfl|rfl|rfl|rfl|rfl|rfl|rfl|rfl|rfl|rfl|rfl|rfl|rfl|rfl|rfl|rfl|rfl|rfl|rfl|rfl|rfl|rfl|rfl|rfl|rfl|hge
  · rw [phaseWorkEq0]; exact ⟨Or.inl rfl, Or.inl rfl, Or.inl rfl⟩
  · rw [phaseWorkEq1]; split_ifs <;> exact ⟨Or.inl rfl, Or.inl rfl, Or.inl rfl⟩
  · rw [phaseWorkEq2]; split_ifs <;> exact ⟨Or.inl rfl, Or.inl rfl, Or.inl rfl⟩
  · rw [phaseWorkEq3]; exact ⟨Or.inl rfl, Or.inl rfl, Or.inl rfl⟩
  · rw [phaseWorkEq4]; split_ifs <;> exact ⟨Or.inl rfl, Or.inl rfl, Or.inl rfl⟩
  · rw [phaseWorkEq5]; split_ifs <;> exact ⟨Or.inl rfl, Or.inl rfl, Or.inl rfl⟩
  · rw [phaseWorkEq6]; exact ⟨Or.inl rfl, Or.inl rfl, Or.inl rfl⟩
  · rw [phaseWorkEq7]; split_ifs <;> exact ⟨Or.inl rfl, Or.inl rfl, Or.inl rfl⟩
  · rw [phaseWorkEq8]; split_ifs <;> exact ⟨Or.inl rfl, Or.inl rfl, Or.inl rfl⟩
  · rw [phaseWorkEq9]; exact ⟨Or.inl rfl, Or.inl rfl, Or.inl rfl⟩
  · rw [phaseWorkEq10]; exact ⟨Or.inr rfl, Or.inl rfl, Or.inl rfl⟩
  · rw [phaseWorkEq11]; exact ⟨Or.inl rfl, Or.inl rfl, Or.inl rfl⟩
  · rw [phaseWorkEq12]; exact ⟨Or.inl rfl, Or.inr rfl, Or.inl rfl⟩
  · rw [phaseWorkEq13]; exact ⟨Or.inl rfl, Or.inl rfl, Or.inl rfl⟩
  · rw [phaseWorkEq14]; exact ⟨Or.inl rfl, Or.inl rfl, Or.inr rfl⟩
  · rw [phaseWorkEq15]; exact ⟨Or.inl rfl, Or.inl rfl, Or.inl rfl⟩
  · rw [phaseWorkEq16]; exact ⟨Or.inr rfl, Or.inl rfl, Or.inl rfl⟩
  · rw [phaseWorkEq17]; exact ⟨Or.inl rfl, Or.inl rfl, Or.inl rfl⟩
  · rw [phaseWorkEq18]; exact ⟨Or.inl rfl, Or.inr rfl, Or.inl rfl⟩
  · rw [phaseWorkEq19]; exact ⟨Or.inl rfl, Or.inl rfl, Or.inl rfl⟩
  · rw [phaseWorkEq20]; exact ⟨Or.inl rfl, Or.inl rfl, Or.inr rfl⟩
  · rw [phaseWorkEq21]; exact ⟨Or.inl rfl, Or.inl rfl, Or.inl rfl⟩
  · rw [phaseWorkEq22]; split_ifs <;> exact ⟨Or.inl rfl, Or.inl rfl, Or.inl rfl⟩
  · rw [phaseWorkEq23]; exact ⟨Or.inl rfl, Or.inl rfl, Or.inl rfl⟩
  · rw [phaseWorkEq24]; exact ⟨Or.inl rfl, Or.inl rfl, Or.inl rfl⟩
  · rw [phaseWorkEq25]; exact ⟨Or.inl rfl, Or.inl rfl, Or.inl rfl⟩
  · rw [phaseWorkEq26]; split_ifs <;> exact ⟨Or.inl rfl, Or.inl rfl, Or.inl rfl⟩
  · rw [phaseWorkEqGe p s hge]; exact ⟨Or.inl rfl, Or.inl rfl, Or.inl rfl⟩

/-- C7: on any interrupt step, a random draw whose value ANDed with 0x18
equals 0x18 is never stored into any `randomposns` slot (the previous
pending value stays), and any slot that is updated receives
`randomnr &&& 0x1f`, which then lies in 0..23. -/
theorem c7_random_rejection (s : TagState) :
    (s.randomnr &&& 0x18 = 0x18 →
      (interruptStep s).randomposns0 = s.randomposns0 ∧
      (interruptStep s).randomposns1 = s.randomposns1 ∧
      (interruptStep s).randomposns2 = s.randomposns2) ∧
    ((interruptStep s).randomposns0 = s.randomposns0 ∨
      ((interruptStep s).randomposns0 = s.randomnr &&& 0x1f ∧
       (interruptStep s).randomposns0 ≤ 23)) ∧
    ((interruptStep s).randomposns1 = s.randomposns1 ∨
      ((interruptStep s).randomposns1 = s.randomnr &&& 0x1f ∧
       (interruptStep s).randomposns1 ≤ 23)) ∧
    ((interruptStep s).randomposns2 = s.randomposns2 ∨
      ((interruptStep s).randomposns2 = s.randomnr &&& 0x1f ∧
       (interruptStep s).randomposns2 ≤ 23)) := by
  obtain ⟨hr0, hr1, hr2⟩ := phaseWork_randomposns s.LedComTimePhase s
  simp only [interruptStep, bumpPhase_randomposns0, bumpPhase_randomposns1,
    bumpPhase_randomposns2]
  refine ⟨?_, ?_, ?_, ?_⟩
  · intro hrej
    refine ⟨?_, ?_, ?_⟩
    · rcases hr0 with h | h
      · exact h
      · rw [h, randomAccept_reject s.randomnr s.randomposns0 hrej]
    · rcases hr1 with h | h
      · exact h
      · rw [h, randomAccept_reject s.randomnr s.randomposns1 hrej]
    · rcases hr2 with h | h
      · exact h
      · rw [h, randomAccept_reject s.randomnr s.randomposns2 hrej]
  · rcases hr0 with h | h
    · exact Or.inl h
    · rw [h]; exact randomAccept_cases s.randomnr s.randomposns0
  · rcases hr1 with h | h
    · exact Or.inl h
    · rw [h]; exact randomAccept_cases s.randomnr s.randomposns1
  · rcases hr2 with h | h
    · exact Or.inl h
    · rw [h]; exact randomAccept_cases s.randomnr s.randomposns2

/-- C7 (witness): the rejection property applied to a concrete state at
phase 10 whose pending draw has both bits of 0x18 set. -/
theorem c7_witness :
    (interruptStep { initState with LedComTimePhase := 10, randomnr := 0x18 }).randomposns0 =
      ({ initState with LedComTimePhase := 10, randomnr := 0x18 } : TagState).randomposns0 ∧
    (interruptStep { initState with LedComTimePhase := 10, randomnr := 0x18 }).randomposns1 =
      ({ initState with LedComTimePhase := 10, randomnr := 0x18 } : TagState).randomposns1 ∧
    (interruptStep { initState with LedComTimePhase := 10, randomnr := 0x18 }).randomposns2 =
      ({ initState with LedComTimePhase := 10, randomnr := 0x18 } : TagState).randomposns2 :=
  (c7_random_rejection { initState with LedComTimePhase := 10, randomnr := 0x18 }).1 (by decide)

/-! ### C8: chaser direction and wraparound -/

/-- C8: the chaser position update is +1 modulo 24 for pixels 0 and 2 and
-1 modulo 24 for pixel 1, stays in 0..23, and 24 consecutive updates return
to the start; and on an interrupt step in ChaserMode at the update phases
1/4/7 with an expired chase counter, the pixel positions are updated by
exactly these functions. -/
theorem c8_chaser :
    (∀ q : Nat, q < 24 →
      chaseAdvCW q = (q + 1) % 24 ∧ chaseAdvCCW q = (q + 23) % 24 ∧
      chaseAdvCW q ≤ 23 ∧ chaseAdvCCW q ≤ 23 ∧
      chaseAdvCW^[24] q = q ∧ chaseAdvCCW^[24] q = q) ∧
    (∀ s : TagState, s.mode = 1 →
      (s.LedComTimePhase = 1 → s.LedChaseCount0 = 0 →
        (interruptStep s).LedPos0 = chaseAdvCW s.LedPos0) ∧
      (s.LedComTimePhase = 4 → s.LedChaseCount1 = 0 →
        (interruptStep s).LedPos1 = chaseAdvCCW s.LedPos1) ∧
      (s.LedComTimePhase = 7 → s.LedChaseCount2 = 0 →
        (interruptStep s).LedPos2 = chaseAdvCW s.LedPos2)) := by
  constructor
  · decide
  · intro s hm
    refine ⟨?_, ?_, ?_⟩
    · intro hp hc
      simp only [interruptStep, hp, bumpPhase_LedPos0]
      rw [phaseWorkEq1, if_pos hc, if_pos (show s.mode ≠ 0 by rw [hm]; omega)]
    · intro hp hc
      simp only [interruptStep, hp, bumpPhase_LedPos1]
      rw [phaseWorkEq4, if_pos hc, if_pos (show s.mode ≠ 0 by rw [hm]; omega)]
    · intro hp hc
      simp only [interruptStep, hp, bumpPhase_LedPos2]
      rw [phaseWorkEq7, if_pos hc, if_pos (show s.mode ≠ 0 by rw [hm]; omega)]

/-- C8 (witness): the wraparound facts at position 23 and the step facts in
a concrete ChaserMode state at phase 1 with an expired counter. -/
theorem c8_witness :
    (chaseAdvCW 23 = (23 + 1) % 24 ∧ chaseAdvCCW 23 = (23 + 23) % 24 ∧
      chaseAdvCW 23 ≤ 23 ∧ chaseAdvCCW 23 ≤ 23 ∧
      chaseAdvCW^[24] 23 = 23 ∧ chaseAdvCCW^[24] 23 = 23) ∧
    (interruptStep { initState with mode := 1, LedComTimePhase := 1, LedChaseCount0 := 0 }).LedPos0 =
      chaseAdvCW ({ initState with mode := 1, LedComTimePhase := 1, LedChaseCount0 := 0 } : TagState).LedPos0 :=
  ⟨c8_chaser.1 23 (by decide),
   (c8_chaser.2 { initState with mode := 1, LedComTimePhase := 1, LedChaseCount0 := 0 } rfl).1 rfl rfl⟩

/-! ### C9: shared colour index with fixed offsets -/

theorem step_at23 (s : TagState) (hp : s.LedComTimePhase = 23) :
    (interruptStep s).LedCol0 = colors.getD s.colorcount 0 ∧
    (interruptStep s).LedCol1 = s.LedCol1 ∧
    (interruptStep s).LedCol2 = s.LedCol2 ∧
    (interruptStep s).colorcount = s.colorcount ∧
    (interruptStep s).LedComTimePhase = 24 := by
  simp only [interruptStep, hp, bumpPhase_LedCol0, bumpPhase_LedCol1, bumpPhase_LedCol2,
    bumpPhase_colorcount, bumpPhase_phase]
  rw [phaseWorkEq23]
  exact ⟨rfl, rfl, rfl, rfl, by show (s.LedComTimePhase + 1) % 256 = 24; omega⟩

theorem step_at24 (s : TagState) (hp : s.LedComTimePhase = 24) :
    (interruptStep s).LedCol1 = colors.getD (colIdx1 s.colorcount) 0 ∧
    (interruptStep s).LedCol0 = s.LedCol0 ∧
    (interruptStep s).LedCol2 = s.LedCol2 ∧
    (interruptStep s).colorcount = s.colorcount ∧
    (interruptStep s).LedComTimePhase = 25 := by
  simp only [interruptStep, hp, bumpPhase_LedCol0, bumpPhase_LedCol1, bumpPhase_LedCol2,
    bumpPhase_colorcount, bumpPhase_phase]
  rw [phaseWorkEq24]
  exact ⟨rfl, rfl, rfl, rfl, by show (s.LedComTimePhase + 1) % 256 = 25; omega⟩

theorem step_at25 (s : TagState) (hp : s.LedComTimePhase = 25) :
    (interruptStep s).LedCol2 = colors.getD (colIdx2 s.colorcount) 0 ∧
    (interruptStep s).LedCol0 = s.LedCol0 ∧
    (interruptStep s).LedCol1 = s.LedCol1 ∧
    (interruptStep s).colorcount = s.colorcount := by
  simp only [interruptStep, hp, bumpPhase_LedCol0, bumpPhase_LedCol1, bumpPhase_LedCol2,
    bumpPhase_colorcount]
  rw [phaseWorkEq25]
  exact ⟨rfl, rfl, rfl, rfl⟩

theorem colIdx1_mod (c : Nat) (h : c ≤ 11) : colIdx1 c = (c + 4) % 12 := by
  unfold colIdx1; split_ifs <;> omega

theorem colIdx2_mod (c : Nat) (h : c ≤ 11) : colIdx2 c = (c + 8) % 12 := by
  unfold colIdx2; split_ifs <;> omega

/-- C9: with the shared colour index in 0..11, phase 23 assigns pixel 0 the
colour `colors[colorcount]`, phase 24 assigns pixel 1
`colors[(colorcount+4) mod 12]`, phase 25 assigns pixel 2
`colors[(colorcount+8) mod 12]`, and when the colour counter expires at
phase 22 the index advances circularly through 0..11. -/
theorem c9_color_offsets (s : TagState) (hcc : s.colorcount ≤ 11) :
    (s.LedComTimePhase = 23 →
      (interruptStep s).LedCol0 = colors.getD s.colorcount 0) ∧
    (s.LedComTimePhase = 24 →
      (interruptStep s).LedCol1 = colors.getD ((s.colorcount + 4) % 12) 0) ∧
    (s.LedComTimePhase = 25 →
      (interruptStep s).LedCol2 = colors.getD ((s.colorcount + 8) % 12) 0) ∧
    (s.LedComTimePhase = 22 → s.LedColorCount = 0 →
      (interruptStep s).colorcount = (s.colorcount + 1) % 12 ∧
      (interruptStep s).colorcount ≤ 11) ∧
    (s.LedComTimePhase = 23 →
      (interruptStep^[3] s).LedCol0 = colors.getD s.colorcount 0 ∧
      (interruptStep^[3] s).LedCol1 = colors.getD ((s.colorcount + 4) % 12) 0 ∧
      (interruptStep^[3] s).LedCol2 = colors.getD ((s.colorcount + 8) % 12) 0) := by
  refine ⟨?_, ?_, ?_, ?_, ?_⟩
  · intro hp
    simp only [interruptStep, hp, bumpPhase_LedCol0]
    rw [phaseWorkEq23]
  · intro hp
    simp only [interruptStep, hp, bumpPhase_LedCol1]
    rw [phaseWorkEq24]
    have hidx : colIdx1 s.colorcount = (s.colorcount + 4) % 12 := by
      unfold colIdx1; split_ifs <;> omega
    rw [hidx]
  · intro hp
    simp only [interruptStep, hp, bumpPhase_LedCol2]
    rw [phaseWorkEq25]
    have hidx : colIdx2 s.colorcount = (s.colorcount + 8) % 12 := by
      unfold colIdx2; split_ifs <;> omega
    rw [hidx]
  · intro hp hc
    simp only [interruptStep, hp, bumpPhase_colorcount]
    rw [phaseWorkEq22, if_pos hc]
    constructor
    · show (if s.colorcount > 10 then 0 else (s.colorcount + 1) % 256) = (s.colorcount + 1) % 12
      split_ifs <;> omega
    · show (if s.colorcount > 10 then 0 else (s.colorcount + 1) % 256) ≤ 11
      split_ifs <;> omega
  · intro hp
    obtain ⟨a0, a1, a2, acc, aph⟩ := step_at23 s hp
    obtain ⟨b1, b0, b2, bcc, bph⟩ := step_at24 (interruptStep s) aph
    obtain ⟨d2, d0, d1, dcc⟩ := step_at25 (interruptStep (interruptStep s)) bph
    have h3 : interruptStep^[3] s = interruptStep (interruptStep (interruptStep s)) := rfl
    rw [h3]
    refine ⟨?_, ?_, ?_⟩
    · rw [d0, b0, a0]
    · rw [d1, b1, acc, colIdx1_mod s.colorcount hcc]
    · rw [d2, bcc, acc, colIdx2_mod s.colorcount hcc]

/-- C9 (witness): the phase-23 colour assignment and phase-22 index advance
applied to concrete states with colour index 11 (the wrap case). -/
theorem c9_witness :
    (interruptStep { initState with LedComTimePhase := 23, colorcount := 11 }).LedCol0 =
      colors.getD ({ initState with LedComTimePhase := 23, colorcount := 11 } : TagState).colorcount 0 ∧
    ((interruptStep { initState with LedComTimePhase := 22, colorcount := 11, LedColorCount := 0 }).colorcount =
      (({ initState with LedComTimePhase := 22, colorcount := 11, LedColorCount := 0 } : TagState).colorcount + 1) % 12 ∧
     (interruptStep { initState with LedComTimePhase := 22, colorcount := 11, LedColorCount := 0 }).colorcount ≤ 11) :=
  ⟨(c9_color_offsets { initState with LedComTimePhase := 23, colorcount := 11 } (by decide)).1 rfl,
   (c9_color_offsets { initState with LedComTimePhase := 22, colorcount := 11, LedColorCount := 0 } (by decide)).2.2.2.1 rfl rfl⟩

/-! ### C10: memory safety invariant -/

theorem randomAccept_le (r old : Nat) (h : old ≤ 23) : randomAccept r old ≤ 23 := by
  rcases randomAccept_cases r old with h2 | h2
  · rw [h2]; exact h
  · exact h2.2

theorem step_SafeInv (s : TagState) (hs : SafeInv s) : SafeInv (interruptStep s) := by
  obtain ⟨h1, h2, h3, h4, h5, h6, h7, h8, h9⟩ := hs
  unfold SafeInv
  have hcase : s.LedComTimePhase = 0 ∨ s.LedComTimePhase = 1 ∨ s.LedComTimePhase = 2 ∨ s.LedComTimePhase = 3 ∨ s.LedComTimePhase = 4 ∨ s.LedComTimePhase = 5 ∨ s.LedComTimePhase = 6 ∨ s.LedComTimePhase = 7 ∨ s.LedComTimePhase = 8 ∨ s.LedComTimePhase = 9 ∨ s.LedComTimePhase = 10 ∨ s.LedComTimePhase = 11 ∨ s.LedComTimePhase = 12 ∨ s.LedComTimePhase = 13 ∨ s.LedComTimePhase = 14 ∨ s.LedComTimePhase = 15 ∨ s.LedComTimePhase = 16 ∨ s.LedComTimePhase = 17 ∨ s.LedComTimePhase = 18 ∨ s.LedComTimePhase = 19 ∨ s.LedComTimePhase = 20 ∨ s.LedComTimePhase = 21 ∨ s.LedComTimePhase = 22 ∨ s.LedComTimePhase = 23 ∨ s.LedComTimePhase = 24 ∨ s.LedComTimePhase = 25 ∨ s.LedComTimePhase = 26 := by omega
  rcases hcase with hp|hp|hp|hp|hp|hp|hp|hp|hp|hp|hp|hp|hp|hp|hp|hp|hp|hp|hp|hp|hp|hp|hp|hp|hp|hp|hp
  · simp only [interruptStep, hp]
    rw [phaseWorkEq0]
    exact ⟨h1, h2, h3, h4, h5, h6, h7, h8, by show (s.LedComTimePhase + 1) % 256 ≤ 26; omega⟩
  · simp only [interruptStep, hp]
    rw [phaseWorkEq1]
    split_ifs
    · exact ⟨by show chaseAdvCW s.LedPos0 ≤ 23; unfold chaseAdvCW; split_ifs <;> omega, h2, h3, h4, h5, h6, h7, h8, by show (s.LedComTimePhase + 1) % 256 ≤ 26; omega⟩
    · exact ⟨h4, h2, h3, h4, h5, h6, h7, h8, by show (s.LedComTimePhase + 1) % 256 ≤ 26; omega⟩
    · exact ⟨h1, h2, h3, h4, h5, h6, h7, h8, by show (s.LedComTimePhase + 1) % 256 ≤ 26; omega⟩
  · simp only [interruptStep, hp]
    rw [phaseWorkEq2]
    split_ifs <;> exact ⟨h1, h2, h3, h4, h5, h6, h7, h8, by show (s.LedComTimePhase + 1) % 256 ≤ 26; omega⟩
  · simp only [interruptStep, hp]
    rw [phaseWorkEq3]
    exact ⟨h1, h2, h3, h4, h5, h6, h7, h8, by show (s.LedComTimePhase + 1) % 256 ≤ 26; omega⟩
  · simp only [interruptStep, hp]
    rw [phaseWorkEq4]
    split_ifs
    · exact ⟨h1, by show chaseAdvCCW s.LedPos1 ≤ 23; unfold chaseAdvCCW; split_ifs <;> omega, h3, h4, h5, h6, h7, h8, by show (s.LedComTimePhase + 1) % 256 ≤ 26; omega⟩
    · exact ⟨h1, h5, h3, h4, h5, h6, h7, h8, by show (s.LedComTimePhase + 1) % 256 ≤ 26; omega⟩
    · exact ⟨h1, h2, h3, h4, h5, h6, h7, h8, by show (s.LedComTimePhase + 1) % 256 ≤ 26; omega⟩
  · simp only [interruptStep, hp]
    rw [phaseWorkEq5]
    split_ifs <;> exact ⟨h1, h2, h3, h4, h5, h6, h7, h8, by show (s.LedComTimePhase + 1) % 256 ≤ 26; omega⟩
  · simp only [interruptStep, hp]
    rw [phaseWorkEq6]
    exact ⟨h1, h2, h3, h4, h5, h6, h7, h8, by show (s.LedComTimePhase + 1) % 256 ≤ 26; omega⟩
  · simp only [interruptStep, hp]
    rw [phaseWorkEq7]
    split_ifs
    · exact ⟨h1, h2, by show chaseAdvCW s.LedPos2 ≤ 23; unfold chaseAdvCW; split_ifs <;> omega, h4, h5, h6, h7, h8, by show (s.LedComTimePhase + 1) % 256 ≤ 26; omega⟩
    · exact ⟨h1, h2, h6, h4, h5, h6, h7, h8, by show (s.LedComTimePhase + 1) % 256 ≤ 26; omega⟩
    · exact ⟨h1, h2, h3, h4, h5, h6, h7, h8, by show (s.LedComTimePhase + 1) % 256 ≤ 26; omega⟩
  · simp only [interruptStep, hp]
    rw [phaseWorkEq8]
    split_ifs <;> exact ⟨h1, h2, h3, h4, h5, h6, h7, h8, by show (s.LedComTimePhase + 1) % 256 ≤ 26; omega⟩
  · simp only [interruptStep, hp]
    rw [phaseWorkEq9]
    exact ⟨h1, h2, h3, h4, h5, h6, h7, h8, by show (s.LedComTimePhase + 1) % 256 ≤ 26; omega⟩
  · simp only [interruptStep, hp]
    rw [phaseWorkEq10]
    exact ⟨h1, h2, h3, randomAccept_le s.randomnr s.randomposns0 h4, h5, h6, h7, h8, by show (s.LedComTimePhase + 1) % 256 ≤ 26; omega⟩
  · simp only [interruptStep, hp]
    rw [phaseWorkEq11]
    exact ⟨h1, h2, h3, h4, h5, h6, h7, h8, by show (s.LedComTimePhase + 1) % 256 ≤ 26; omega⟩
  · simp only [interruptStep, hp]
    rw [phaseWorkEq12]
    exact ⟨h1, h2, h3, h4, randomAccept_le s.randomnr s.randomposns1 h5, h6, h7, h8, by show (s.LedComTimePhase + 1) % 256 ≤ 26; omega⟩
  · simp only [interruptStep, hp]
    rw [phaseWorkEq13]
    exact ⟨h1, h2, h3, h4, h5, h6, h7, h8, by show (s.LedComTimePhase + 1) % 256 ≤ 26; omega⟩
  · simp only [interruptStep, hp]
    rw [phaseWorkEq14]
    exact ⟨h1, h2, h3, h4, h5, randomAccept_le s.randomnr s.randomposns2 h6, h7, h8, by show (s.LedComTimePhase + 1) % 256 ≤ 26; omega⟩
  · simp only [interruptStep, hp]
    rw [phaseWorkEq15]
    exact ⟨h1, h2, h3, h4, h5, h6, h7, h8, by show (s.LedComTimePhase + 1) % 256 ≤ 26; omega⟩
  · simp only [interruptStep, hp]
    rw [phaseWorkEq16]
    exact ⟨h1, h2, h3, randomAccept_le s.randomnr s.randomposns0 h4, h5, h6, h7, h8, by show (s.LedComTimePhase + 1) % 256 ≤ 26; omega⟩
  · simp only [interruptStep, hp]
    rw [phaseWorkEq17]
    exact ⟨h1, h2, h3, h4, h5, h6, h7, h8, by show (s.LedComTimePhase + 1) % 256 ≤ 26; omega⟩
  · simp only [interruptStep, hp]
    rw [phaseWorkEq18]
    exact ⟨h1, h2, h3, h4, randomAccept_le s.randomnr s.randomposns1 h5, h6, h7, h8, by show (s.LedComTimePhase + 1) % 256 ≤ 26; omega⟩
  · simp only [interruptStep, hp]
    rw [phaseWorkEq19]
    exact ⟨h1, h2, h3, h4, h5, h6, h7, h8, by show (s.LedComTimePhase + 1) % 256 ≤ 26; omega⟩
  · simp only [interruptStep, hp]
    rw [phaseWorkEq20]
    exact ⟨h1, h2, h3, h4, h5, randomAccept_le s.randomnr s.randomposns2 h6, h7, h8, by show (s.LedComTimePhase + 1) % 256 ≤ 26; omega⟩
  · simp only [interruptStep, hp]
    rw [phaseWorkEq21]
    exact ⟨h1, h2, h3, h4, h5, h6, h7, h8, by show (s.LedComTimePhase + 1) % 256 ≤ 26; omega⟩
  · simp only [interruptStep, hp]
    rw [phaseWorkEq22]
    split_ifs
    · exact ⟨h1, h2, h3, h4, h5, h6, by show (0 : Nat) ≤ 11; omega, h8, by show (s.LedComTimePhase + 1) % 256 ≤ 26; omega⟩
    · exact ⟨h1, h2, h3, h4, h5, h6, by show (s.colorcount + 1) % 256 ≤ 11; omega, h8, by show (s.LedComTimePhase + 1) % 256 ≤ 26; omega⟩
    · exact ⟨h1, h2, h3, h4, h5, h6, h7, h8, by show (s.LedComTimePhase + 1) % 256 ≤ 26; omega⟩
  · simp only [interruptStep, hp]
    rw [phaseWorkEq23]
    exact ⟨h1, h2, h3, h4, h5, h6, h7, h8, by show (s.LedComTimePhase + 1) % 256 ≤ 26; omega⟩
  · simp only [interruptStep, hp]
    rw [phaseWorkEq24]
    exact ⟨h1, h2, h3, h4, h5, h6, h7, h8, by show (s.LedComTimePhase + 1) % 256 ≤ 26; omega⟩
  · simp only [interruptStep, hp]
    rw [phaseWorkEq25]
    exact ⟨h1, h2, h3, h4, h5, h6, h7, h8, by show (s.LedComTimePhase + 1) % 256 ≤ 26; omega⟩
  · simp only [interruptStep, hp]
    rw [phaseWorkEq26]
    split_ifs
    · exact ⟨h1, h2, h3, h4, h5, h6, h7, h8, by show ((255 : Nat) + 1) % 256 ≤ 26; omega⟩
    · exact ⟨h1, h2, h3, h4, h5, h6, h7, by show (0 : Nat) ≤ 1; omega, by show ((255 : Nat) + 1) % 256 ≤ 26; omega⟩

theorem selectInttAtGe (p : Nat) (s : TagState) (h : 27 ≤ p) :
    selectInttAt p s = 72 := by
  have g0 : ¬(p = 0) := by omega
  have g1 : ¬(p = 1) := by omega
  have g2 : ¬(p = 2) := by omega
  have g3 : ¬(p = 3) := by omega
  have g4 : ¬(p = 4) := by omega
  have g5 : ¬(p = 5) := by omega
  have g6 : ¬(p = 6) := by omega
  have g7 : ¬(p = 7) := by omega
  have g8 : ¬(p = 8) := by omega
  have g9 : ¬(p = 9 ∨ p = 18) := by omega
  have g10 : ¬(p = 10 ∨ p = 19) := by omega
  have g11 : ¬(p = 11 ∨ p = 20) := by omega
  have g12 : ¬(p = 12 ∨ p = 21) := by omega
  have g13 : ¬(p = 13 ∨ p = 22) := by omega
  have g14 : ¬(p = 14 ∨ p = 23) := by omega
  have g15 : ¬(p = 15 ∨ p = 24) := by omega
  have g16 : ¬(p = 16 ∨ p = 25) := by omega
  have g17 : ¬(p = 17 ∨ p = 26) := by omega
  simp only [selectInttAt]
  rw [if_neg g0, if_neg g1, if_neg g2, if_neg g3, if_neg g4, if_neg g5, if_neg g6, if_neg g7, if_neg g8, if_neg g9, if_neg g10, if_neg g11, if_neg g12, if_neg g13, if_neg g14, if_neg g15, if_neg g16, if_neg g17]

theorem selectInttAt_le (p : Nat) (s : TagState) (h1 : s.LedPos0 ≤ 23)
    (h2 : s.LedPos1 ≤ 23) (h3 : s.LedPos2 ≤ 23) : selectInttAt p s ≤ 72 := by
  by_cases hp : p ≤ 26
  · interval_cases p <;>
      (simp only [selectInttAt]; norm_num; try split_ifs <;> omega)
  · rw [selectInttAtGe p s (by omega)]

/-- C10: the safety invariant — pixel positions and pending random positions
in 0..23, colour index in 0..11, phase in 0..26 — holds at boot, is
preserved by every interrupt step, holds at every state reachable from the
initial state, and under it the selected component index is at most 72 (so
the 73-entry `pp` lookup is in bounds) and the colour-table indices used at
phases 24/25 are at most 11. -/
theorem c10_safety :
    SafeInv initState ∧
    (∀ s : TagState, SafeInv s → SafeInv (interruptStep s) ∧ selectIntt s ≤ 72 ∧
      colIdx1 s.colorcount ≤ 11 ∧ colIdx2 s.colorcount ≤ 11) ∧
    (∀ n : Nat, SafeInv (interruptStep^[n] initState)) := by
  have hstep : ∀ s : TagState, SafeInv s → SafeInv (interruptStep s) ∧
      selectIntt s ≤ 72 ∧ colIdx1 s.colorcount ≤ 11 ∧ colIdx2 s.colorcount ≤ 11 := by
    intro s hs
    obtain ⟨h1, h2, h3, h4, h5, h6, h7, h8, h9⟩ := hs
    refine ⟨step_SafeInv s ⟨h1, h2, h3, h4, h5, h6, h7, h8, h9⟩, ?_, ?_, ?_⟩
    · exact selectInttAt_le s.LedComTimePhase s h1 h2 h3
    · unfold colIdx1; split_ifs <;> omega
    · unfold colIdx2; split_ifs <;> omega
  refine ⟨by decide, hstep, ?_⟩
  intro n
  induction n with
  | zero => exact by decide
  | succ n ih =>
    rw [Function.iterate_succ_apply']
    exact step_SafeInv _ ih

/-- C10 (witness): the invariant and bounds applied at the initial state. -/
theorem c10_witness :
    SafeInv (interruptStep initState) ∧ selectIntt initState ≤ 72 ∧
    colIdx1 initState.colorcount ≤ 11 ∧ colIdx2 initState.colorcount ≤ 11 :=
  c10_safety.2.1 initState (by decide)
